import Mathlib

/-!
Shallow embedding of the authentication and wallet-pass subsystem of
`server.js` (digital business-card backend).  Database rows become Lean
structures, the mutable Postgres tables become an explicit `DBState`
record threaded through every operation, and each Express handler of
interest becomes a pure function from request data and state to a
result/state pair.  Timestamps are modelled as `Nat` milliseconds.
-/

namespace BCServer

/-- Session roles stored in the `sessions.role` column
(`'super_admin'` / `'company_admin'`). -/
inductive Role where
  | super_admin
  | company_admin
deriving DecidableEq

/-- One row of the `auth_codes` table: a pending login challenge
(`email`, `code`, `expires_at`). -/
structure Challenge where
  email : String
  code : String
  expiresAt : Nat
deriving DecidableEq

/-- One row of the `sessions` table.  `companyId` models the nullable
`company_id` column; `createdAt` models the `created_at` default. -/
structure Session where
  id : String
  email : String
  role : Role
  companyId : Option String
  createdAt : Nat
  expiresAt : Nat
deriving DecidableEq

/-- One row of the `companies` table (the columns the login handler
reads). -/
structure Company where
  id : String
  name : String
  email : String
  password : String
deriving DecidableEq

/-- The durable store: the three tables the auth handlers touch. -/
structure DBState where
  authCodes : List Challenge
  sessions : List Session
  companies : List Company
deriving DecidableEq

/-- Environment configuration read by the verify-code handler:
`ADMIN_BYPASS_CODE` and `NODE_ENV` (empty string models an unset
variable, matching JS falsiness of `''`). -/
structure AuthEnv where
  adminBypassCode : String
  nodeEnv : String
deriving DecidableEq

/-- `const SUPER_ADMIN_EMAIL = 'ml@feedbacknfc.com'` (server.js line 256). -/
def SUPER_ADMIN_EMAIL : String := "ml@feedbacknfc.com"

/-- 24 hours in milliseconds, the session lifetime
(`24 * 60 * 60 * 1000`). -/
def DAY_MS : Nat := 24 * 60 * 60 * 1000

/-- 10 minutes in milliseconds, the challenge lifetime
(`10 * 60 * 1000`). -/
def TEN_MIN_MS : Nat := 10 * 60 * 1000

/-- server.js line 340:
`const bypassCode = process.env.ADMIN_BYPASS_CODE ||
 (process.env.NODE_ENV !== 'production' ? '000000' : null)`. -/
def bypassCode (env : AuthEnv) : Option String :=
  if env.adminBypassCode ≠ "" then some env.adminBypassCode
  else if env.nodeEnv ≠ "production" then some "000000"
  else none

/-- server.js line 341:
`const isBypass = bypassCode && code === bypassCode && email === SUPER_ADMIN_EMAIL`. -/
def isBypass (env : AuthEnv) (email code : String) : Bool :=
  match bypassCode env with
  | none => false
  | some bc => code == bc && email == SUPER_ADMIN_EMAIL

/-- Error responses of the verify-code handler (lines 364, 371, 375). -/
inductive AuthError where
  | NoPendingChallenge
  | ChallengeExpired
  | InvalidCode
deriving DecidableEq

/-- Error response of the request-code handler (line 271). -/
inductive RequestError where
  | Unauthorized
deriving DecidableEq

/-- Error response of the company-login handler (line 428). -/
inductive LoginError where
  | InvalidCredentials
deriving DecidableEq

/-- `SELECT code, expires_at FROM auth_codes WHERE email = ...`
(line 359; `email` is the table's unique key). -/
def findChallenge (s : DBState) (email : String) : Option Challenge :=
  s.authCodes.find? (fun c => c.email == email)

/-- `DELETE FROM auth_codes WHERE email = ...` (lines 370, 388). -/
def deleteChallenge (s : DBState) (email : String) : DBState :=
  { s with authCodes := s.authCodes.filter (fun c => c.email != email) }

/-- `INSERT INTO auth_codes ... ON CONFLICT (email) DO UPDATE ...`
(lines 279-284): overwrite any existing challenge for the email. -/
def upsertChallenge (s : DBState) (ch : Challenge) : DBState :=
  { s with authCodes := ch :: s.authCodes.filter (fun c => c.email != ch.email) }

/-- The super-admin session inserted by the verify-code handler
(lines 347-353 and 379-385): no `company_id` column, 24-hour expiry. -/
def mkSuperSession (sid email : String) (now : Nat) : Session :=
  { id := sid, email := email, role := .super_admin, companyId := none,
    createdAt := now, expiresAt := now + DAY_MS }

/-- The company-admin session inserted by the company-login handler
(lines 437-440): bound to the company id, 24-hour expiry. -/
def mkCompanySession (sid email companyId : String) (now : Nat) : Session :=
  { id := sid, email := email, role := .company_admin, companyId := some companyId,
    createdAt := now, expiresAt := now + DAY_MS }

/-- `POST /api/auth/request-code` (lines 266-327).  The random 6-digit
code is supplied as the `code` argument (the handler draws it from
`generateAuthCode()` only after the identity check passes). -/
def requestCode (s : DBState) (email code : String) (now : Nat) :
    Except RequestError Unit × DBState :=
  if email ≠ SUPER_ADMIN_EMAIL then
    (.error .Unauthorized, s)
  else
    (.ok (), upsertChallenge s { email := email, code := code, expiresAt := now + TEN_MIN_MS })

/-- The stored-challenge branch of `POST /api/auth/verify-code`
(lines 358-390): lookup, expiry check (strict `>` on the current time),
code comparison, then session insert followed by challenge delete. -/
def verifyStored (s : DBState) (email code sid : String) (now : Nat) :
    Except AuthError Session × DBState :=
  match findChallenge s email with
  | none => (.error .NoPendingChallenge, s)
  | some authData =>
    if now > authData.expiresAt then
      (.error .ChallengeExpired, deleteChallenge s email)
    else if authData.code ≠ code then
      (.error .InvalidCode, s)
    else
      (.ok (mkSuperSession sid email now),
       deleteChallenge { s with sessions := mkSuperSession sid email now :: s.sessions } email)

/-- `POST /api/auth/verify-code` (lines 330-395): the bypass branch
(lines 343-356) runs first and, when taken, inserts a session without
touching the `auth_codes` table; otherwise the stored challenge is
checked. -/
def verifyCode (env : AuthEnv) (s : DBState) (email code sid : String) (now : Nat) :
    Except AuthError Session × DBState :=
  if isBypass env email code then
    (.ok (mkSuperSession sid email now),
     { s with sessions := mkSuperSession sid email now :: s.sessions })
  else
    verifyStored s email code sid now

/-- SQL `LOWER(...)`: lower-case each character. -/
def lowerStr (s : String) : String :=
  String.mk (s.data.map Char.toLower)

/-- `POST /api/auth/company-login` (lines 398-456): case-insensitive
email lookup with exact password match (`WHERE LOWER(email) =
LOWER(...) AND password = ...`); both failure reasons return the one
literal `{ error: 'Invalid credentials' }` response. -/
def companyLogin (s : DBState) (email password sid : String) (now : Nat) :
    Except LoginError Session × DBState :=
  match s.companies.find? (fun c => lowerStr c.email == lowerStr email && c.password == password) with
  | none => (.error .InvalidCredentials, s)
  | some comp =>
    (.ok (mkCompanySession sid email comp.id now),
     { s with sessions := mkCompanySession sid email comp.id now :: s.sessions })

/-- `POST /api/auth/logout` (lines 459-470):
`DELETE FROM sessions WHERE id = ...`. -/
def logout (s : DBState) (sid : String) : DBState :=
  { s with sessions := s.sessions.filter (fun se => se.id != sid) }

/-- The session-store operations of the server, for invariant
preservation: every handler that inserts into or deletes from the
`sessions` table. -/
inductive Op where
  | requestCode (email code : String) (now : Nat)
  | verifyCode (env : AuthEnv) (email code sid : String) (now : Nat)
  | companyLogin (email password sid : String) (now : Nat)
  | logout (sid : String)

/-- The state transition performed by one handler invocation. -/
def applyOp (s : DBState) : Op → DBState
  | .requestCode email code now => (requestCode s email code now).2
  | .verifyCode env email code sid now => (verifyCode env s email code sid now).2
  | .companyLogin email password sid now => (companyLogin s email password sid now).2
  | .logout sid => logout s sid

/-- The per-session invariant of the spec's data model: expiry after
creation; `company_admin` sessions bound to a company; `super_admin`
sessions bound to none. -/
def SessionInv (se : Session) : Prop :=
  se.createdAt < se.expiresAt ∧
  (se.role = .company_admin → se.companyId.isSome = true) ∧
  (se.role = .super_admin → se.companyId = none)

/-- The store-wide invariant: every stored session satisfies
`SessionInv`. -/
def StateInv (s : DBState) : Prop :=
  ∀ se ∈ s.sessions, SessionInv se

-- ==================== WALLET CONFIGURATION ====================

/-- `GOOGLE_WALLET_CONFIG` (server.js lines 14-21): issuer id and
service-account key from the environment (empty string when unset). -/
structure GoogleConfig where
  issuerId : String
  serviceAccountKey : String
deriving DecidableEq

/-- `get isConfigured() { return !!(this.issuerId && this.serviceAccountKey) }`:
JS string truthiness is non-emptiness. -/
def GoogleConfig.isConfigured (c : GoogleConfig) : Bool :=
  c.issuerId != "" && c.serviceAccountKey != ""

/-- `SAMSUNG_WALLET_CONFIG` (server.js lines 24-32). -/
structure SamsungConfig where
  partnerId : String
  cardId : String
  certificateId : String
  privateKey : String
deriving DecidableEq

/-- `!!(this.partnerId && this.cardId && this.certificateId && this.privateKey)`. -/
def SamsungConfig.isConfigured (c : SamsungConfig) : Bool :=
  c.partnerId != "" && c.cardId != "" && c.certificateId != "" && c.privateKey != ""

/-- The contact columns the wallet builders read. -/
structure Contact where
  id : String
  nameEn : String
  positionEn : String
  phone : String
  email : String
  location : String
deriving DecidableEq

/-- The company fields the wallet builders read (`name` is nullable
through the LEFT JOIN; `none` models SQL NULL). -/
structure CompanyInfo where
  name : Option String
  logo : Option String
deriving DecidableEq

/-- Parsed Google service-account JSON: the two fields the builder
uses (`client_email`, `private_key`). -/
structure ServiceAccountCredentials where
  client_email : String
  private_key : String
deriving DecidableEq

/-- The wallet helpers' external collaborators, passed explicitly:
`parseCreds` models `JSON.parse` of a service-account document
(`none` = parse throws), `readFile` models `fs.readFileSync`
(`none` = throws), `pkcs8Ok` models whether `importPKCS8` accepts the
given key material. -/
structure WalletEnv where
  parseCreds : String → Option ServiceAccountCredentials
  readFile : String → Option String
  pkcs8Ok : String → Bool

/-- The wallet failure taxonomy: configuration missing, key material
rejected by import, signing failure. -/
inductive WalletError where
  | ProviderNotConfigured
  | KeyImportError
  | SigningError
deriving DecidableEq

/-- Observable side effects of a builder run, in order: a key-import
attempt on the given material, and a signing attempt. -/
inductive Effect where
  | keyImport (material : String)
  | sign
deriving DecidableEq

/-- A signed compact token, abstracted to its protected header and its
claims payload (the signature bytes carry no information the claims
need). -/
structure JoseHeader where
  alg : String
  typ : String
  kid : Option String
deriving DecidableEq

/-- The claims set of the Google Wallet JWT (server.js lines 102-110). -/
structure GoogleClaims where
  iss : String
  aud : String
  typ : String
  origins : List String
  payloadObjects : List String
deriving DecidableEq

/-- A signed token: protected header plus claims. -/
structure SignedToken (α : Type) where
  header : JoseHeader
  claims : α
deriving DecidableEq

/-- The payload of the Samsung Wallet JWS (server.js lines 181-186 and
142-178, restricted to the identifying fields). -/
structure SamsungPayload where
  partnerId : String
  cardId : String
  refId : String
  idNumber : String
  title : String
  utcTimestamp : Nat
deriving DecidableEq

-- ==================== GOOGLE WALLET HELPERS ====================

/-- `contact.id.substring(0, 20)`: the first `n` UTF-16 units of the
string, modelled on the character list. -/
def takeFirst (s : String) (n : Nat) : String :=
  String.mk (s.data.take n)

/-- The allowed identifier alphabet of the regex `[^a-zA-Z0-9_-]`. -/
def isAllowedChar (ch : Char) : Bool :=
  (decide ('a' ≤ ch) && decide (ch ≤ 'z')) ||
  (decide ('A' ≤ ch) && decide (ch ≤ 'Z')) ||
  (decide ('0' ≤ ch) && decide (ch ≤ '9')) ||
  ch == '_' || ch == '-'

/-- One step of `.replace(/[^a-zA-Z0-9_-]/g, '_')`. -/
def sanitizeChar (ch : Char) : Char :=
  if isAllowedChar ch then ch else '_'

/-- `.replace(/[^a-zA-Z0-9_-]/g, '_')` over the whole string. -/
def sanitize (str : String) : String :=
  String.mk (str.data.map sanitizeChar)

/-- server.js line 61: `` const uniqueId =
`$\x7bcontact.id.substring(0, 20)\x7d_$\x7bDate.now()\x7d`.replace(/[^a-zA-Z0-9_-]/g, '_') ``. -/
def uniqueId (contactId : String) (nowMs : Nat) : String :=
  sanitize (takeFirst contactId 20 ++ "_" ++ Nat.repr nowMs)

/-- server.js line 62: `` const objectId = `$\x7bissuerId\x7d.$\x7buniqueId\x7d` ``. -/
def objectId (issuerId contactId : String) (nowMs : Nat) : String :=
  issuerId ++ "." ++ uniqueId contactId nowMs

/-- Credential loading (server.js lines 49-56): try `JSON.parse` on the
configured value as literal content; on failure read it as a file path
and parse the file's contents. -/
def loadGoogleCredentials (env : WalletEnv) (key : String) :
    Option ServiceAccountCredentials :=
  match env.parseCreds key with
  | some credentials => some credentials
  | none =>
    match env.readFile key with
    | some keyContent => env.parseCreds keyContent
    | none => none

/-- The JWT claims built at server.js lines 102-110: issuer is the
service account's `client_email`, audience the literal `'google'`,
type `'savetowallet'`, the two hard-coded origins, and the pass object
as payload. -/
def googleClaims (credEmail : String) (passObjectId : String) : GoogleClaims :=
  { iss := credEmail
    aud := "google"
    typ := "savetowallet"
    origins := ["https://bc.feedbacknfc.com", "http://localhost:3000"]
    payloadObjects := [passObjectId] }

/-- `generateGoogleWalletJWT` (server.js lines 42-123), returning the
result together with the trace of key-import/sign effects.  The
configuration guard runs before any credential parsing, key import or
signing. -/
def generateGoogleWalletJWT (env : WalletEnv) (cfg : GoogleConfig)
    (contact : Contact) (nowMs : Nat) :
    Except WalletError (SignedToken GoogleClaims) × List Effect :=
  if cfg.isConfigured then
    match loadGoogleCredentials env cfg.serviceAccountKey with
    | none => (.error .KeyImportError, [])
    | some credentials =>
      if env.pkcs8Ok credentials.private_key then
        (.ok { header := { alg := "RS256", typ := "JWT", kid := none }
               claims := googleClaims credentials.client_email
                           (objectId cfg.issuerId contact.id nowMs) },
         [.keyImport credentials.private_key, .sign])
      else
        (.error .KeyImportError, [.keyImport credentials.private_key])
  else
    (.error .ProviderNotConfigured, [])

-- ==================== SAMSUNG WALLET HELPERS ====================

/-- `generateSamsungWalletToken` (server.js lines 133-206), returning
the result with its effect trace.  The configured private key string is
handed to `importPKCS8` directly (line 189) — there is no file-path
fallback on this path — and the JWS protected header carries the
configured certificate id as `kid` (line 196). -/
def generateSamsungWalletToken (env : WalletEnv) (cfg : SamsungConfig)
    (contact : Contact) (nowMs : Nat) :
    Except WalletError (SignedToken SamsungPayload) × List Effect :=
  if cfg.isConfigured then
    if env.pkcs8Ok cfg.privateKey then
      (.ok { header := { alg := "RS256", typ := "JWT", kid := some cfg.certificateId }
             claims := { partnerId := cfg.partnerId, cardId := cfg.cardId,
                         refId := contact.id, idNumber := contact.id,
                         title := contact.nameEn, utcTimestamp := nowMs } },
       [.keyImport cfg.privateKey, .sign])
    else
      (.error .KeyImportError, [.keyImport cfg.privateKey])
  else
    (.error .ProviderNotConfigured, [])

/-- Modelled from the spec (§4.3): the claimed key-material resolution
rule — "try parsing as literal content first and fall back to reading a
file, since both forms are accepted".  Kept separate from the source
embedding so the two can be compared. -/
def specFallbackLoad (parses : String → Bool) (readFile : String → Option String)
    (key : String) : Option String :=
  if parses key then some key else readFile key

-- ==================== CONCRETE FIXTURES ====================

/-- An empty store: no challenges, sessions or companies. -/
def emptyDB : DBState := { authCodes := [], sessions := [], companies := [] }

/-- A development environment with no bypass flag configured
(`ADMIN_BYPASS_CODE` unset, `NODE_ENV` not `'production'`). -/
def devEnv : AuthEnv := { adminBypassCode := "", nodeEnv := "development" }

/-- A production environment with no bypass flag configured. -/
def prodEnv : AuthEnv := { adminBypassCode := "", nodeEnv := "production" }

/-- A production environment that explicitly configures a bypass code. -/
def bypassEnv : AuthEnv := { adminBypassCode := "999999", nodeEnv := "production" }

/-- A store holding one pending challenge for the privileged identity. -/
def challengeDB : DBState :=
  { authCodes := [{ email := "ml@feedbacknfc.com", code := "123456", expiresAt := 600000 }],
    sessions := [], companies := [] }

/-- A store holding one registered company. -/
def oneCompanyDB : DBState :=
  { authCodes := [], sessions := [],
    companies := [{ id := "c-1", name := "Acme", email := "admin@acme.com", password := "secret" }] }

/-- A sample contact record. -/
def janeContact : Contact :=
  { id := "jane-doe-1699999999999", nameEn := "Jane Doe", positionEn := "CEO",
    phone := "+15550100", email := "jane@example.com", location := "" }

/-- Wallet collaborators in which nothing parses, no file exists and no
key imports. -/
def noWalletEnv : WalletEnv :=
  { parseCreds := fun _ => none, readFile := fun _ => none, pkcs8Ok := fun _ => false }

/-- A parsed service-account credential fixture. -/
def okCreds : ServiceAccountCredentials :=
  { client_email := "svc@example.iam.gserviceaccount.com", private_key := "PEM-GOOGLE" }

/-- Wallet collaborators in which the literal document `SA-JSON`
parses to `okCreds` and both fixture keys import successfully. -/
def okWalletEnv : WalletEnv :=
  { parseCreds := fun s => if s == "SA-JSON" then some okCreds else none
    readFile := fun _ => none
    pkcs8Ok := fun s => s == "PEM-GOOGLE" || s == "PEM-SAMSUNG" }

/-- A fully configured Google Wallet fixture with inline key material. -/
def okGoogleCfg : GoogleConfig :=
  { issuerId := "3388000000012345678", serviceAccountKey := "SA-JSON" }

/-- A fully configured Samsung Wallet fixture with inline key material. -/
def okSamsungCfg : SamsungConfig :=
  { partnerId := "p1", cardId := "card1", certificateId := "cert1", privateKey := "PEM-SAMSUNG" }

/-- An unconfigured Google Wallet fixture (no environment variables). -/
def emptyGoogleCfg : GoogleConfig := { issuerId := "", serviceAccountKey := "" }

/-- An unconfigured Samsung Wallet fixture. -/
def emptySamsungCfg : SamsungConfig :=
  { partnerId := "", cardId := "", certificateId := "", privateKey := "" }

/-- Wallet collaborators in which nothing parses as inline content but
the path `/etc/samsung-key.pem` names a file holding importable key
material. -/
def samsungPathEnv : WalletEnv :=
  { parseCreds := fun _ => none
    readFile := fun p => if p == "/etc/samsung-key.pem" then some "PEM-SAMSUNG-FILE" else none
    pkcs8Ok := fun s => s == "PEM-SAMSUNG-FILE" }

/-- A Samsung Wallet fixture whose key material is supplied as a
filesystem path. -/
def samsungPathCfg : SamsungConfig :=
  { partnerId := "p1", cardId := "card1", certificateId := "cert1",
    privateKey := "/etc/samsung-key.pem" }

-- ==================== HELPER LEMMAS ====================

theorem sanitizeChar_allowed (ch : Char) : isAllowedChar (sanitizeChar ch) = true := by
  unfold sanitizeChar
  by_cases h : isAllowedChar ch = true
  · simp [h]
  · simp [h]
    decide

theorem sanitize_allowed (str : String) :
    ∀ c ∈ (sanitize str).data, isAllowedChar c = true := by
  intro c hc
  have hc' : c ∈ str.data.map sanitizeChar := hc
  obtain ⟨a, _, ha⟩ := List.mem_map.mp hc'
  rw [← ha]
  exact sanitizeChar_allowed a

theorem takeFirst_length (s : String) (n : Nat) : (takeFirst s n).length ≤ n := by
  show (s.data.take n).length ≤ n
  rw [List.length_take]
  omega

theorem find?_email_filter (l : List Challenge) (email : String) :
    (l.filter (fun c => c.email != email)).find? (fun c => c.email == email) = none := by
  rw [List.find?_eq_none]
  intro c hc
  rw [List.mem_filter] at hc
  have h2 := hc.2
  simp only [bne_iff_ne, ne_eq] at h2
  simp only [beq_iff_eq]
  exact h2

theorem requestCode_sessions (s : DBState) (email code : String) (now : Nat) :
    (requestCode s email code now).2.sessions = s.sessions := by
  unfold requestCode upsertChallenge
  split <;> rfl

theorem verifyCode_sessions (env : AuthEnv) (s : DBState) (email code sid : String) (now : Nat) :
    (verifyCode env s email code sid now).2.sessions = s.sessions ∨
    (verifyCode env s email code sid now).2.sessions = mkSuperSession sid email now :: s.sessions := by
  unfold verifyCode verifyStored deleteChallenge
  split
  · right; rfl
  · split
    · left; rfl
    · split
      · left; rfl
      · split
        · left; rfl
        · right; rfl

theorem companyLogin_sessions (s : DBState) (email password sid : String) (now : Nat) :
    (companyLogin s email password sid now).2.sessions = s.sessions ∨
    ∃ cid, (companyLogin s email password sid now).2.sessions
      = mkCompanySession sid email cid now :: s.sessions := by
  unfold companyLogin
  split
  · left; rfl
  · right; exact ⟨_, rfl⟩

theorem sessionInv_mkSuper (sid email : String) (now : Nat) :
    SessionInv (mkSuperSession sid email now) := by
  refine ⟨?_, ?_, ?_⟩
  · show now < now + DAY_MS
    have : 0 < DAY_MS := by decide
    omega
  · intro h
    exact absurd h (by simp [mkSuperSession])
  · intro _
    rfl

theorem sessionInv_mkCompany (sid email cid : String) (now : Nat) :
    SessionInv (mkCompanySession sid email cid now) := by
  refine ⟨?_, ?_, ?_⟩
  · show now < now + DAY_MS
    have : 0 < DAY_MS := by decide
    omega
  · intro _
    rfl
  · intro h
    exact absurd h (by simp [mkCompanySession])

-- ==================== CLAIM THEOREMS ====================

/-- C3: for every contact input, if the target wallet provider's
`isConfigured` is false, the pass builder (Google or Samsung) fails
with a `ProviderNotConfigured` error and performs no key import and no
signing attempt (the effect trace is empty). -/
theorem wallet_not_configured_fails (env : WalletEnv) (gcfg : GoogleConfig)
    (scfg : SamsungConfig) (contact : Contact) (nowMs : Nat)
    (hg : gcfg.isConfigured = false) (hs : scfg.isConfigured = false) :
    generateGoogleWalletJWT env gcfg contact nowMs = (.error .ProviderNotConfigured, []) ∧
    generateSamsungWalletToken env scfg contact nowMs = (.error .ProviderNotConfigured, []) := by
  constructor
  · simp [generateGoogleWalletJWT, hg]
  · simp [generateSamsungWalletToken, hs]

/-- Witness for C3: the unconfigured fixtures trip the guard. -/
theorem wallet_not_configured_fails_witness :
    emptyGoogleCfg.isConfigured = false ∧ emptySamsungCfg.isConfigured = false ∧
    generateGoogleWalletJWT noWalletEnv emptyGoogleCfg janeContact 0
      = (.error .ProviderNotConfigured, []) ∧
    generateSamsungWalletToken noWalletEnv emptySamsungCfg janeContact 0
      = (.error .ProviderNotConfigured, []) := by
  have h := wallet_not_configured_fails noWalletEnv emptyGoogleCfg emptySamsungCfg
    janeContact 0 (by decide) (by decide)
  exact ⟨by decide, by decide, h.1, h.2⟩

/-- C4: the Google pass object identifier is the configured issuer id,
a dot, then the sanitization of (≤20-character prefix of the contact
id) ++ `_` ++ timestamp; every character of that sanitized part lies in
the allowed set (alphanumeric, underscore, hyphen). -/
theorem google_object_id_sanitized (issuerId contactId : String) (nowMs : Nat) :
    objectId issuerId contactId nowMs = issuerId ++ "." ++ uniqueId contactId nowMs ∧
    uniqueId contactId nowMs = sanitize (takeFirst contactId 20 ++ "_" ++ Nat.repr nowMs) ∧
    (takeFirst contactId 20).length ≤ 20 ∧
    (∀ c ∈ (uniqueId contactId nowMs).data, isAllowedChar c = true) := by
  refine ⟨rfl, rfl, takeFirst_length contactId 20, ?_⟩
  exact sanitize_allowed (takeFirst contactId 20 ++ "_" ++ Nat.repr nowMs)

/-- Witness for C4: the spec's end-to-end contact id at a fixed
timestamp. -/
theorem google_object_id_sanitized_witness :
    objectId "3388000000012345678" "jane-doe-1699999999999" 1700000000000
      = "3388000000012345678" ++ "." ++ uniqueId "jane-doe-1699999999999" 1700000000000 ∧
    (takeFirst "jane-doe-1699999999999" 20).length ≤ 20 ∧
    (∀ c ∈ (uniqueId "jane-doe-1699999999999" 1700000000000).data, isAllowedChar c = true) := by
  have h := google_object_id_sanitized "3388000000012345678" "jane-doe-1699999999999" 1700000000000
  exact ⟨h.1, h.2.2.1, h.2.2.2⟩

/-- C7: for every identity other than the single designated privileged
identity, the request-code operation fails with `Unauthorized` and
leaves the store untouched (no challenge stored, no code recorded). -/
theorem request_code_unauthorized (s : DBState) (email code : String) (now : Nat)
    (h : email ≠ SUPER_ADMIN_EMAIL) :
    requestCode s email code now = (.error .Unauthorized, s) := by
  simp [requestCode, h]

/-- Witness for C7: a foreign identity is rejected without effect. -/
theorem request_code_unauthorized_witness :
    "intruder@example.com" ≠ SUPER_ADMIN_EMAIL ∧
    requestCode oneCompanyDB "intruder@example.com" "123456" 0
      = (.error .Unauthorized, oneCompanyDB) := by
  exact ⟨by decide, request_code_unauthorized oneCompanyDB "intruder@example.com" "123456" 0 (by decide)⟩

/-- C8: a company-login request that matches no stored company by
case-insensitive email and exact password fails with
`InvalidCredentials` and leaves the store unchanged, and the failure
response is the same value whether the email is unknown or the
password is wrong. -/
theorem company_login_invalid_credentials (s : DBState) (email password sid : String) (now : Nat)
    (h : s.companies.find?
      (fun c => lowerStr c.email == lowerStr email && c.password == password) = none) :
    companyLogin s email password sid now = (.error .InvalidCredentials, s) ∧
    ∀ s2 email2 password2 sid2 now2,
      s2.companies.find?
        (fun c => lowerStr c.email == lowerStr email2 && c.password == password2) = none →
      (companyLogin s2 email2 password2 sid2 now2).1 = (companyLogin s email password sid now).1 := by
  constructor
  · simp [companyLogin, h]
  · intro s2 email2 password2 sid2 now2 h2
    simp [companyLogin, h, h2]

/-- Witness for C8: a wrong password on a known email and a wholly
unknown email produce the identical failure response. -/
theorem company_login_invalid_credentials_witness :
    oneCompanyDB.companies.find?
      (fun c => lowerStr c.email == lowerStr "Admin@Acme.com" && c.password == "wrong") = none ∧
    companyLogin oneCompanyDB "Admin@Acme.com" "wrong" "sid-8" 0
      = (.error .InvalidCredentials, oneCompanyDB) ∧
    (companyLogin oneCompanyDB "nobody@else.com" "secret" "sid-9" 5).1
      = (companyLogin oneCompanyDB "Admin@Acme.com" "wrong" "sid-8" 0).1 := by
  have h1 : oneCompanyDB.companies.find?
      (fun c => lowerStr c.email == lowerStr "Admin@Acme.com" && c.password == "wrong") = none := by
    decide
  have h := company_login_invalid_credentials oneCompanyDB "Admin@Acme.com" "wrong" "sid-8" 0 h1
  exact ⟨h1, h.1, h.2 oneCompanyDB "nobody@else.com" "secret" "sid-9" 5 (by decide)⟩

/-- C1 counterexample: in a development environment with no bypass flag
configured, a verify-code request for the privileged identity with code
`000000` succeeds although no challenge row exists — it does not fail
with `NoPendingChallenge` as the claim requires of every request. -/
theorem verify_code_bypass_defeats_challenge_cx :
    findChallenge emptyDB "ml@feedbacknfc.com" = none ∧
    (verifyCode devEnv emptyDB "ml@feedbacknfc.com" "000000" "sid-1" 0).1
      = .ok (mkSuperSession "sid-1" "ml@feedbacknfc.com" 0) ∧
    (verifyCode devEnv emptyDB "ml@feedbacknfc.com" "000000" "sid-1" 0).1
      ≠ .error .NoPendingChallenge := by
  have hok : (verifyCode devEnv emptyDB "ml@feedbacknfc.com" "000000" "sid-1" 0).1
      = .ok (mkSuperSession "sid-1" "ml@feedbacknfc.com" 0) := rfl
  refine ⟨rfl, hok, ?_⟩
  rw [hok]
  simp

/-- C1 (amended): for every verify-code request on which the bypass
branch is not taken: with no challenge row the request fails with
`NoPendingChallenge`; with an expired challenge it fails with
`ChallengeExpired` and the challenge is deleted; with a live challenge
and a mismatched code it fails with `InvalidCode`; and on a matching
code within expiry the challenge is deleted (a second verification
fails with `NoPendingChallenge`) and a session with role `super_admin`
and a 24-hour expiry is created. -/
theorem verify_stored_challenge_semantics (env : AuthEnv) (s : DBState)
    (email code sid : String) (now : Nat)
    (hb : isBypass env email code = false) :
    (findChallenge s email = none →
      verifyCode env s email code sid now = (.error .NoPendingChallenge, s)) ∧
    (∀ ch, findChallenge s email = some ch → now > ch.expiresAt →
      verifyCode env s email code sid now = (.error .ChallengeExpired, deleteChallenge s email)) ∧
    (∀ ch, findChallenge s email = some ch → ¬ now > ch.expiresAt → ch.code ≠ code →
      verifyCode env s email code sid now = (.error .InvalidCode, s)) ∧
    (∀ ch, findChallenge s email = some ch → ¬ now > ch.expiresAt → ch.code = code →
      (verifyCode env s email code sid now).1 = .ok (mkSuperSession sid email now) ∧
      (mkSuperSession sid email now).role = .super_admin ∧
      (mkSuperSession sid email now).expiresAt = now + DAY_MS ∧
      (verifyCode env s email code sid now).2.sessions
        = mkSuperSession sid email now :: s.sessions ∧
      (verifyCode env s email code sid now).2.authCodes
        = s.authCodes.filter (fun c => c.email != email) ∧
      ∀ sid2 now2,
        (verifyCode env ((verifyCode env s email code sid now).2) email code sid2 now2).1
          = .error .NoPendingChallenge) := by
  have hv : verifyCode env s email code sid now = verifyStored s email code sid now := by
    simp [verifyCode, hb]
  refine ⟨?_, ?_, ?_, ?_⟩
  · intro hnone
    rw [hv]
    simp [verifyStored, hnone]
  · intro ch hch hexp
    rw [hv]
    simp [verifyStored, hch, hexp]
  · intro ch hch hexp hne
    rw [hv]
    simp [verifyStored, hch, hexp, hne]
  · intro ch hch hexp heq
    have hres : verifyCode env s email code sid now
        = (.ok (mkSuperSession sid email now),
           deleteChallenge { s with sessions := mkSuperSession sid email now :: s.sessions } email) := by
      rw [hv]
      simp [verifyStored, hch, hexp, heq]
    refine ⟨by rw [hres], rfl, rfl, by rw [hres]; rfl, by rw [hres]; rfl, ?_⟩
    intro sid2 now2
    have hnone2 : findChallenge (verifyCode env s email code sid now).2 email = none := by
      rw [hres]
      show (s.authCodes.filter (fun c => c.email != email)).find? (fun c => c.email == email) = none
      exact find?_email_filter s.authCodes email
    have hv2 : verifyCode env (verifyCode env s email code sid now).2 email code sid2 now2
        = verifyStored (verifyCode env s email code sid now).2 email code sid2 now2 := by
      simp [verifyCode, hb]
    rw [hv2]
    simp [verifyStored, hnone2]

/-- Witness for C1: a production environment with no bypass flag never
takes the bypass branch, and the stored-challenge semantics then hold
on a concrete pending challenge. -/
theorem verify_stored_challenge_semantics_witness :
    isBypass prodEnv "ml@feedbacknfc.com" "123456" = false ∧
    findChallenge challengeDB "ml@feedbacknfc.com"
      = some { email := "ml@feedbacknfc.com", code := "123456", expiresAt := 600000 } ∧
    (verifyCode prodEnv challengeDB "ml@feedbacknfc.com" "123456" "sid-3" 1000).1
      = .ok (mkSuperSession "sid-3" "ml@feedbacknfc.com" 1000) ∧
    (verifyCode prodEnv
        ((verifyCode prodEnv challengeDB "ml@feedbacknfc.com" "123456" "sid-3" 1000).2)
        "ml@feedbacknfc.com" "123456" "sid-4" 2000).1
      = .error .NoPendingChallenge := by
  have h := verify_stored_challenge_semantics prodEnv challengeDB
    "ml@feedbacknfc.com" "123456" "sid-3" 1000 (by decide)
  have hch : findChallenge challengeDB "ml@feedbacknfc.com"
      = some { email := "ml@feedbacknfc.com", code := "123456", expiresAt := 600000 } := by
    decide
  have hs := h.2.2.2 _ hch (by decide) rfl
  exact ⟨by decide, hch, hs.1, hs.2.2.2.2.2 "sid-4" 2000⟩

/-- C2 counterexample: with `ADMIN_BYPASS_CODE` unset and `NODE_ENV`
not `'production'`, the bypass is reachable without any explicit
opt-in — code `000000` for the privileged identity takes the bypass
branch and logs in with no stored challenge. -/
theorem bypass_enabled_by_default_cx :
    devEnv.adminBypassCode = "" ∧
    isBypass devEnv "ml@feedbacknfc.com" "000000" = true ∧
    (verifyCode devEnv emptyDB "ml@feedbacknfc.com" "000000" "sid-2" 0).1
      = .ok (mkSuperSession "sid-2" "ml@feedbacknfc.com" 0) := by
  refine ⟨rfl, by decide, rfl⟩

/-- C2 (amended): in a production environment (`NODE_ENV =
'production'`) where no bypass flag has been configured, the bypass
branch is unreachable and every verify-code request proceeds only
through the stored challenge; in non-production environments the
bypass code instead defaults to `000000`. -/
theorem bypass_unreachable_in_production (env : AuthEnv) (email code : String)
    (h1 : env.adminBypassCode = "") (h2 : env.nodeEnv = "production") :
    isBypass env email code = false ∧
    ∀ s sid now, verifyCode env s email code sid now = verifyStored s email code sid now := by
  have hb : bypassCode env = none := by
    simp [bypassCode, h1, h2]
  have hib : isBypass env email code = false := by
    simp [isBypass, hb]
  exact ⟨hib, fun s sid now => by simp [verifyCode, hib]⟩

/-- Witness for C2 (amended): the concrete production environment. -/
theorem bypass_unreachable_in_production_witness :
    prodEnv.adminBypassCode = "" ∧ prodEnv.nodeEnv = "production" ∧
    isBypass prodEnv "ml@feedbacknfc.com" "000000" = false ∧
    (∀ s sid now, verifyCode prodEnv s "ml@feedbacknfc.com" "000000" sid now
      = verifyStored s "ml@feedbacknfc.com" "000000" sid now) := by
  have h := bypass_unreachable_in_production prodEnv "ml@feedbacknfc.com" "000000" rfl rfl
  exact ⟨rfl, rfl, h.1, h.2⟩

/-- C6 counterexample: a Samsung configuration whose key material is a
filesystem path naming importable key material.  The claimed
inline-then-file resolution would succeed (`specFallbackLoad` yields
the file's contents), but the builder hands the literal path string to
key import and fails with `KeyImportError` — the file-path supply form
is not accepted for the Samsung provider. -/
theorem samsung_key_path_rejected_cx :
    specFallbackLoad samsungPathEnv.pkcs8Ok samsungPathEnv.readFile samsungPathCfg.privateKey
      = some "PEM-SAMSUNG-FILE" ∧
    (generateSamsungWalletToken samsungPathEnv samsungPathCfg janeContact 0).1
      = .error .KeyImportError ∧
    (generateSamsungWalletToken samsungPathEnv samsungPathCfg janeContact 0).2
      = [.keyImport "/etc/samsung-key.pem"] := by
  refine ⟨rfl, rfl, rfl⟩

/-- C6 (amended): only the Google provider resolves key material by
trying an inline parse first and falling back to reading it as a
filesystem path; the Samsung provider always hands the configured
private-key string directly to key import, with no file fallback. -/
theorem key_material_resolution (env : WalletEnv) (key : String) :
    (∀ credentials, env.parseCreds key = some credentials →
      loadGoogleCredentials env key = some credentials) ∧
    (env.parseCreds key = none →
      loadGoogleCredentials env key = (env.readFile key).bind env.parseCreds) ∧
    (∀ cfg contact nowMs, SamsungConfig.isConfigured cfg = true →
      (generateSamsungWalletToken env cfg contact nowMs).2.head?
        = some (.keyImport cfg.privateKey)) := by
  refine ⟨?_, ?_, ?_⟩
  · intro credentials hp
    simp [loadGoogleCredentials, hp]
  · intro hp
    cases hr : env.readFile key <;> simp [loadGoogleCredentials, hp, hr]
  · intro cfg contact nowMs hcfg
    by_cases hk : env.pkcs8Ok cfg.privateKey = true <;>
      simp [generateSamsungWalletToken, hcfg, hk]

/-- Witness for C6 (amended): the inline fixture parses directly, and
the Samsung builder's first effect imports the configured string. -/
theorem key_material_resolution_witness :
    okWalletEnv.parseCreds "SA-JSON" = some okCreds ∧
    loadGoogleCredentials okWalletEnv "SA-JSON" = some okCreds ∧
    okSamsungCfg.isConfigured = true ∧
    (generateSamsungWalletToken okWalletEnv okSamsungCfg janeContact 7).2.head?
      = some (.keyImport "PEM-SAMSUNG") := by
  have h := key_material_resolution okWalletEnv "SA-JSON"
  exact ⟨rfl, h.1 okCreds rfl, rfl, h.2.2 okSamsungCfg janeContact 7 rfl⟩

/-- C5: for every configured provider, the Google pass token's claims
have the credential's `client_email` as issuer, the fixed audience
`google`, type `savetowallet`, a non-empty origins list, and the pass
object as payload; and the Samsung token's protected header carries
the configured certificate id as `kid`. -/
theorem wallet_token_claims (env : WalletEnv) (gcfg : GoogleConfig) (scfg : SamsungConfig)
    (contact : Contact) (nowMs : Nat) (credentials : ServiceAccountCredentials)
    (hg : gcfg.isConfigured = true)
    (hload : loadGoogleCredentials env gcfg.serviceAccountKey = some credentials)
    (hgk : env.pkcs8Ok credentials.private_key = true)
    (hs : scfg.isConfigured = true)
    (hsk : env.pkcs8Ok scfg.privateKey = true) :
    (∃ tok, (generateGoogleWalletJWT env gcfg contact nowMs).1 = .ok tok ∧
      tok.claims.iss = credentials.client_email ∧
      tok.claims.aud = "google" ∧
      tok.claims.typ = "savetowallet" ∧
      tok.claims.origins ≠ [] ∧
      tok.claims.payloadObjects = [objectId gcfg.issuerId contact.id nowMs]) ∧
    (∃ stok, (generateSamsungWalletToken env scfg contact nowMs).1 = .ok stok ∧
      stok.header.kid = some scfg.certificateId) := by
  constructor
  · refine ⟨{ header := { alg := "RS256", typ := "JWT", kid := none },
              claims := googleClaims credentials.client_email
                          (objectId gcfg.issuerId contact.id nowMs) },
      ?_, rfl, rfl, rfl, ?_, rfl⟩
    · simp [generateGoogleWalletJWT, hg, hload, hgk]
    · simp [googleClaims]
  · refine ⟨{ header := { alg := "RS256", typ := "JWT", kid := some scfg.certificateId },
              claims := { partnerId := scfg.partnerId, cardId := scfg.cardId,
                          refId := contact.id, idNumber := contact.id,
                          title := contact.nameEn, utcTimestamp := nowMs } },
      ?_, rfl⟩
    simp [generateSamsungWalletToken, hs, hsk]

/-- Witness for C5: the fully configured fixtures. -/
theorem wallet_token_claims_witness :
    okGoogleCfg.isConfigured = true ∧
    loadGoogleCredentials okWalletEnv okGoogleCfg.serviceAccountKey = some okCreds ∧
    okWalletEnv.pkcs8Ok okCreds.private_key = true ∧
    okSamsungCfg.isConfigured = true ∧
    okWalletEnv.pkcs8Ok okSamsungCfg.privateKey = true ∧
    ((∃ tok, (generateGoogleWalletJWT okWalletEnv okGoogleCfg janeContact 1700000000000).1
        = .ok tok ∧
      tok.claims.iss = okCreds.client_email ∧
      tok.claims.aud = "google" ∧
      tok.claims.typ = "savetowallet" ∧
      tok.claims.origins ≠ [] ∧
      tok.claims.payloadObjects
        = [objectId okGoogleCfg.issuerId janeContact.id 1700000000000]) ∧
    (∃ stok, (generateSamsungWalletToken okWalletEnv okSamsungCfg janeContact 1700000000000).1
        = .ok stok ∧
      stok.header.kid = some okSamsungCfg.certificateId)) := by
  exact ⟨rfl, rfl, rfl, rfl, rfl,
    wallet_token_claims okWalletEnv okGoogleCfg okSamsungCfg janeContact 1700000000000
      okCreds rfl rfl rfl rfl rfl⟩

/-- C9: the session-store invariant — expiry strictly after creation,
`company_admin` sessions bound to a company, `super_admin` sessions
bound to none — is preserved by every handler that creates or deletes
sessions. -/
theorem session_invariant_preserved (s : DBState) (op : Op) (h : StateInv s) :
    StateInv (applyOp s op) := by
  cases op with
  | requestCode email code now =>
    intro se hse
    simp only [applyOp, requestCode_sessions] at hse
    exact h se hse
  | verifyCode env email code sid now =>
    intro se hse
    simp only [applyOp] at hse
    rcases verifyCode_sessions env s email code sid now with hs | hs
    · rw [hs] at hse
      exact h se hse
    · rw [hs] at hse
      rcases List.mem_cons.mp hse with rfl | hmem
      · exact sessionInv_mkSuper sid email now
      · exact h se hmem
  | companyLogin email password sid now =>
    intro se hse
    simp only [applyOp] at hse
    rcases companyLogin_sessions s email password sid now with hs | ⟨cid, hs⟩
    · rw [hs] at hse
      exact h se hse
    · rw [hs] at hse
      rcases List.mem_cons.mp hse with rfl | hmem
      · exact sessionInv_mkCompany sid email cid now
      · exact h se hmem
  | logout sid =>
    intro se hse
    simp only [applyOp, logout] at hse
    exact h se (List.mem_filter.mp hse).1

/-- Witness for C9: the invariant holds on the empty store and is kept
by a concrete successful company login. -/
theorem session_invariant_preserved_witness :
    StateInv oneCompanyDB ∧
    StateInv (applyOp oneCompanyDB (.companyLogin "admin@acme.com" "secret" "sid-5" 0)) := by
  have hinv : StateInv oneCompanyDB := by
    intro se hse
    simp [oneCompanyDB] at hse
  exact ⟨hinv, session_invariant_preserved oneCompanyDB _ hinv⟩

/-- C10: a verify-code request that takes the bypass branch succeeds
without reading or deleting any auth-code row: the challenge table is
unchanged, and a pending unexpired challenge for the identity can
still be verified afterwards with its real code. -/
theorem bypass_preserves_challenges (env : AuthEnv) (s : DBState)
    (email code sid : String) (now : Nat)
    (hb : isBypass env email code = true) :
    (verifyCode env s email code sid now).1 = .ok (mkSuperSession sid email now) ∧
    (verifyCode env s email code sid now).2.authCodes = s.authCodes ∧
    ∀ ch sid2 now2, findChallenge s email = some ch → ¬ now2 > ch.expiresAt →
      (verifyCode env ((verifyCode env s email code sid now).2) email ch.code sid2 now2).1
        = .ok (mkSuperSession sid2 email now2) := by
  have hres : verifyCode env s email code sid now
      = (.ok (mkSuperSession sid email now),
         { s with sessions := mkSuperSession sid email now :: s.sessions }) := by
    simp [verifyCode, hb]
  refine ⟨by rw [hres], by rw [hres], ?_⟩
  intro ch sid2 now2 hfind hexp
  rw [hres]
  have hfind2 : findChallenge
      { s with sessions := mkSuperSession sid email now :: s.sessions } email = some ch := hfind
  by_cases hb2 : isBypass env email ch.code = true
  · simp [verifyCode, hb2]
  · have hb2' : isBypass env email ch.code = false := by
      simpa using hb2
    simp [verifyCode, hb2', verifyStored, hfind2, hexp]

/-- Witness for C10: with an explicitly configured bypass code, a
bypass login leaves the stored challenge in place and its real code
still verifies. -/
theorem bypass_preserves_challenges_witness :
    isBypass bypassEnv "ml@feedbacknfc.com" "999999" = true ∧
    findChallenge challengeDB "ml@feedbacknfc.com"
      = some { email := "ml@feedbacknfc.com", code := "123456", expiresAt := 600000 } ∧
    (verifyCode bypassEnv challengeDB "ml@feedbacknfc.com" "999999" "sid-6" 10).2.authCodes
      = challengeDB.authCodes ∧
    (verifyCode bypassEnv
        ((verifyCode bypassEnv challengeDB "ml@feedbacknfc.com" "999999" "sid-6" 10).2)
        "ml@feedbacknfc.com" "123456" "sid-7" 50).1
      = .ok (mkSuperSession "sid-7" "ml@feedbacknfc.com" 50) := by
  have h := bypass_preserves_challenges bypassEnv challengeDB
    "ml@feedbacknfc.com" "999999" "sid-6" 10 (by decide)
  exact ⟨by decide, by decide, h.2.1,
    h.2.2 { email := "ml@feedbacknfc.com", code := "123456", expiresAt := 600000 }
      "sid-7" 50 (by decide) (by decide)⟩

end BCServer
